import Mathlib

/-
Verification of the quiz-assembly and answer-lookup behaviour of the
wk-app web application (src/app.py).  The relevant parts of app.py are
shallowly embedded below: the SQL sample queries are abstracted as the
row lists they return, the random sampling is abstracted as an arbitrary
sample list, and Python exceptions (KeyError, AttributeError, IndexError)
are modelled with the Except monad.
-/

set_option linter.unusedVariables false

/-- Answer payload of a quiz prompt: the JSON value of the key "answer" is
either a single string or a list of strings, the two shapes produced by
get_test_data in app.py. -/
inductive Answer where
  | str (s : String)
  | list (l : List String)
  deriving DecidableEq

/-- Prompt record, mirroring the dicts with keys "type" and "answer" built
by get_test_data. -/
structure Prompt where
  type : String
  answer : Answer
  deriving DecidableEq

/-- Quiz entry record, mirroring the dicts appended to test_items in
get_test_data (app.py lines 430 to 529). -/
structure TestItem where
  id : String
  type : String
  character : String
  prompts : List Prompt
  mode : String
  deriving DecidableEq

/-- Row returned by the radical sample query of get_test_data
(app.py lines 392 to 398): SELECT id, character, meaning FROM radicals.
The character column is nullable; note that character_image is NOT part
of the select list, so the returned dict has no character_image key. -/
structure RadicalRow where
  id : Nat
  character : Option String
  meaning : String
  deriving DecidableEq

/-- Row returned by the kanji sample query of get_test_data
(app.py lines 402 to 411).  The readings column is the STRING_AGG of the
reading_text rows; it is NULL (None in Python) when the kanji has no
kanji_readings rows, because of the LEFT JOIN. -/
structure KanjiRow where
  id : Nat
  character : String
  meaning : String
  readings : Option String
  deriving DecidableEq

/-- Row returned by the vocabulary sample query of get_test_data
(app.py lines 415 to 424).  alternative_meanings is the ARRAY_AGG of the
meaning_text rows ordered by meaning_text; with the LEFT JOIN a vocab
without alternative meanings yields the one element array containing
NULL, so the Python value is a list of str-or-None. -/
structure VocabRow where
  id : Nat
  character : String
  primary_meaning : String
  reading : String
  alternative_meanings : List (Option String)
  deriving DecidableEq

/-- Python truthiness of a nullable string: None and the empty string are
falsy, every other string is truthy. -/
def pyTruthy : Option String → Bool
  | none => false
  | some s => s != ""

/-- Embedding of the expression
radical["character"] or radical["character_image"]
(app.py lines 438 and 488).  When radical["character"] is falsy, Python
evaluates radical["character_image"], which raises KeyError because the
sample query selected only id, character and meaning. -/
def radicalItemCharacter (radical : RadicalRow) : Except String String :=
  if pyTruthy radical.character then Except.ok (radical.character.getD "")
  else Except.error "KeyError: character_image"

/-- Splitting of a character list at every comma, keeping empty segments,
the behaviour of the Python expression s.split(","). -/
def splitCommaChars : List Char → List (List Char)
  | [] => [[]]
  | c :: rest =>
      if c = ',' then [] :: splitCommaChars rest
      else
        match splitCommaChars rest with
        | [] => [[c]]
        | seg :: segs => (c :: seg) :: segs

/-- Embedding of the Python expression s.split(","). -/
def pySplitComma (s : String) : List String :=
  (splitCommaChars s.data).map String.mk

/-- Embedding of the Python expression s.strip(): leading and trailing
whitespace characters are removed. -/
def pyStrip (s : String) : String :=
  String.mk (((s.data.dropWhile Char.isWhitespace).reverse.dropWhile Char.isWhitespace).reverse)

/-- Embedding of the list comprehension
[r.strip() for r in readings.split(",") if r.strip()]
(app.py lines 446 and 497). -/
def readings_list (readings : String) : List String :=
  (pySplitComma readings).filterMap
    (fun r => if pyStrip r != "" then some (pyStrip r) else none)

/-- Review entry for one sampled radical (app.py lines 433 to 442). -/
def radicalReviewItem (radical : RadicalRow) : Except String TestItem :=
  match radicalItemCharacter radical with
  | Except.error e => Except.error e
  | Except.ok ch =>
      Except.ok
        { id := "radical_" ++ toString radical.id
          type := "radical"
          character := ch
          prompts := [{ type := "meaning", answer := Answer.str radical.meaning }]
          mode := "review" }

/-- Learn entry for one sampled radical (app.py lines 482 to 492). -/
def radicalLearnItem (radical : RadicalRow) : Except String TestItem :=
  match radicalItemCharacter radical with
  | Except.error e => Except.error e
  | Except.ok ch =>
      Except.ok
        { id := "learn_radical_" ++ toString radical.id
          type := "radical"
          character := ch
          prompts := [{ type := "meaning", answer := Answer.str radical.meaning }]
          mode := "learn" }

/-- Review entry for one sampled kanji (app.py lines 445 to 458).  When the
aggregated readings value is None, the attribute access None.split raises
AttributeError. -/
def kanjiReviewItem (k : KanjiRow) : Except String TestItem :=
  match k.readings with
  | none => Except.error "AttributeError: NoneType has no attribute split"
  | some s =>
      Except.ok
        { id := "kanji_" ++ toString k.id
          type := "kanji"
          character := k.character
          prompts := [{ type := "meaning", answer := Answer.str k.meaning },
                      { type := "reading", answer := Answer.list (readings_list s) }]
          mode := "review" }

/-- Learn entry for one sampled kanji (app.py lines 495 to 509). -/
def kanjiLearnItem (k : KanjiRow) : Except String TestItem :=
  match k.readings with
  | none => Except.error "AttributeError: NoneType has no attribute split"
  | some s =>
      Except.ok
        { id := "learn_kanji_" ++ toString k.id
          type := "kanji"
          character := k.character
          prompts := [{ type := "meaning", answer := Answer.str k.meaning },
                      { type := "reading", answer := Answer.list (readings_list s) }]
          mode := "learn" }

/-- Embedding of the all_meanings construction (app.py lines 463 to 465 and
514 to 516): all_meanings starts as [primary_meaning]; when the aggregated
alternative_meanings list is truthy (non empty) it is extended with the
truthy elements only, which drops SQL NULLs and empty strings. -/
def vocabAllMeanings (v : VocabRow) : List String :=
  [v.primary_meaning] ++
    (if v.alternative_meanings.isEmpty then []
     else v.alternative_meanings.filterMap (fun alt => if pyTruthy alt then alt else none))

/-- Review entry for one sampled vocabulary (app.py lines 461 to 478). -/
def vocabReviewItem (v : VocabRow) : TestItem :=
  { id := "vocab_" ++ toString v.id
    type := "vocabulary"
    character := v.character
    prompts := [{ type := "meaning", answer := Answer.list (vocabAllMeanings v) },
                { type := "reading", answer := Answer.str v.reading }]
    mode := "review" }

/-- Learn entry for one sampled vocabulary (app.py lines 512 to 528). -/
def vocabLearnItem (v : VocabRow) : TestItem :=
  { id := "learn_vocab_" ++ toString v.id
    type := "vocabulary"
    character := v.character
    prompts := [{ type := "meaning", answer := Answer.list (vocabAllMeanings v) },
                { type := "reading", answer := Answer.str v.reading }]
    mode := "learn" }

/-- Python list indexing sample[i], raising IndexError when out of range. -/
def listIndex (l : List α) (i : Nat) : Except String α :=
  match l.get? i with
  | some a => Except.ok a
  | none => Except.error "IndexError"

/-- Embedding of the append loops of get_test_data: each loop iteration
builds one entry and appends it; a Python exception in an iteration aborts
the whole request, which the Except monad mirrors. -/
def appendItems (f : α → Except String β) : List α → Except String (List β)
  | [] => Except.ok []
  | a :: rest => do
      let it ← f a
      let its ← appendItems f rest
      pure (it :: its)

/-- Embedding of the learn loops for i in range(2) (app.py lines 482, 495
and 512), unrolled at the constant 2: iteration i indexes the already
drawn sample at position i and builds one learn entry. -/
def learnTwo (f : α → Except String TestItem) (l : List α) : Except String (List TestItem) := do
  let a0 ← listIndex l 0
  let t0 ← f a0
  let a1 ← listIndex l 1
  let t1 ← f a1
  pure [t0, t1]

/-- Embedding of get_test_data (app.py lines 385 to 533), parameterized by
the three sample row lists returned by the three ORDER BY RANDOM queries.
The result list is review radicals, review kanji, review vocabulary,
learn radicals, learn kanji, learn vocabulary, in the order the Python
code appends them to test_items. -/
def get_test_data (radicals : List RadicalRow) (kanji : List KanjiRow)
    (vocabulary : List VocabRow) : Except String (List TestItem) := do
  let reviewRadicals ← appendItems radicalReviewItem radicals
  let reviewKanji ← appendItems kanjiReviewItem kanji
  let reviewVocab := vocabulary.map vocabReviewItem
  let learnRadicals ← learnTwo radicalLearnItem radicals
  let learnKanji ← learnTwo kanjiLearnItem kanji
  let learnVocab ← learnTwo (fun v => Except.ok (vocabLearnItem v)) vocabulary
  pure (reviewRadicals ++ reviewKanji ++ reviewVocab ++
        learnRadicals ++ learnKanji ++ learnVocab)

/-- Description of the reading answer list in the words of the spec: the
list obtained from the aggregated reading text by splitting on commas,
trimming whitespace, and dropping empty segments, order preserved. -/
def specReadingList (s : String) : List String :=
  ((pySplitComma s).map pyStrip).filter (fun t => t != "")

/-- Description of the meaning answer list in the words of the spec: the
list whose first element is the primary meaning, followed by exactly the
non-empty, non-null alternative meanings. -/
def specMeaningList (primary : String) (alts : List (Option String)) : List String :=
  primary :: alts.filterMap (fun alt =>
    match alt with
    | none => none
    | some s => if s = "" then none else some s)

/-- Ordering used by ARRAY_AGG(vam.meaning_text ORDER BY vam.meaning_text)
in the vocabulary sample query (app.py line 417): ascending on the text,
with SQL NULL sorted last, the Postgres default for ascending order. -/
def vam_le : Option String → Option String → Prop
  | none, none => True
  | none, some _ => False
  | some _, none => True
  | some x, some y => x ≤ y

instance : DecidableRel vam_le := fun a b =>
  match a, b with
  | none, none => Decidable.isTrue trivial
  | none, some _ => Decidable.isFalse (fun h => h)
  | some _, none => Decidable.isTrue trivial
  | some x, some y => inferInstanceAs (Decidable (x ≤ y))

instance : IsTotal (Option String) vam_le :=
  ⟨fun a b =>
    match a, b with
    | none, none => Or.inl trivial
    | none, some _ => Or.inr trivial
    | some _, none => Or.inl trivial
    | some x, some y => le_total x y⟩

instance : IsTrans (Option String) vam_le :=
  ⟨fun a b c h₁ h₂ =>
    match a, b, c, h₁, h₂ with
    | none, none, none, _, _ => trivial
    | none, none, some _, _, h₂ => h₂.elim
    | none, some _, _, h₁, _ => h₁.elim
    | some _, _, none, _, _ => trivial
    | some _, none, some _, _, h₂ => h₂.elim
    | some x, some y, some z, h₁, h₂ => le_trans h₁ h₂⟩

/-- Embedding of the aggregation
ARRAY_AGG(vam.meaning_text ORDER BY vam.meaning_text)
as a function of the stored meaning_text rows of one vocabulary item:
the rows sorted ascending by text, NULLs last. -/
def aggAlternativeMeanings (stored : List (Option String)) : List (Option String) :=
  List.insertionSort vam_le stored

/-- Return record of get_additional_info, initialised to empty strings
(app.py line 326). -/
structure Info where
  meaning : String
  reading : String
  deriving DecidableEq

/-- Row of the radicals table as selected by the radical branch of
get_additional_info (app.py lines 329 to 336). -/
structure RadicalDbRow where
  character : Option String
  character_image : Option String
  meaning : String
  mnemonic : Option String
  mnemonic_image : Option String
  deriving DecidableEq

/-- Row of kanji_mnemonics as selected in app.py lines 344 to 352. -/
structure MnemonicRow where
  mnemonic_type : String
  content : String
  deriving DecidableEq

/-- Row of vocab_explanations as selected in app.py lines 363 to 371. -/
structure ExplanationRow where
  explanation_type : String
  content : String
  deriving DecidableEq

/-- Stored rows visible to get_additional_info, keyed by item id. -/
structure InfoDb where
  radicals : Nat → Option RadicalDbRow
  kanji_mnemonics : Nat → List MnemonicRow
  vocab_explanations : Nat → List ExplanationRow

/-- Ordering of ORDER BY mnemonic_type in the kanji mnemonic query. -/
def mnemonicLe (a b : MnemonicRow) : Prop :=
  a.mnemonic_type ≤ b.mnemonic_type

instance : DecidableRel mnemonicLe := fun a b =>
  inferInstanceAs (Decidable (a.mnemonic_type ≤ b.mnemonic_type))

instance : IsTotal MnemonicRow mnemonicLe :=
  ⟨fun a b => le_total a.mnemonic_type b.mnemonic_type⟩

instance : IsTrans MnemonicRow mnemonicLe :=
  ⟨fun _ _ _ h₁ h₂ => le_trans h₁ h₂⟩

/-- Ordering of ORDER BY explanation_type in the explanation query. -/
def explanationLe (a b : ExplanationRow) : Prop :=
  a.explanation_type ≤ b.explanation_type

instance : DecidableRel explanationLe := fun a b =>
  inferInstanceAs (Decidable (a.explanation_type ≤ b.explanation_type))

instance : IsTotal ExplanationRow explanationLe :=
  ⟨fun a b => le_total a.explanation_type b.explanation_type⟩

instance : IsTrans ExplanationRow explanationLe :=
  ⟨fun _ _ _ h₁ h₂ => le_trans h₁ h₂⟩

/-- Embedding of get_additional_info (app.py lines 320 to 382).  The two
ORDER BY mnemonic_type and ORDER BY explanation_type queries are embedded
as a stable sort of the stored rows ascending by the category label; the
Python for loops over the fetched rows are left folds that overwrite the
meaning or reading field on every matching row. -/
def get_additional_info (db : InfoDb) (item_type : String) (item_id : Nat) : Info :=
  let info : Info := { meaning := "", reading := "" }
  if item_type = "radical" then
    match db.radicals item_id with
    | some result =>
        if pyTruthy result.mnemonic then { info with meaning := result.mnemonic.getD "" }
        else info
    | none => info
  else if item_type = "kanji" then
    let mnemonics := List.insertionSort mnemonicLe (db.kanji_mnemonics item_id)
    mnemonics.foldl
      (fun info m =>
        if m.mnemonic_type = "meaning" then { info with meaning := m.content }
        else if m.mnemonic_type = "reading" then { info with reading := m.content }
        else info)
      info
  else if item_type = "vocabulary" then
    let explanations := List.insertionSort explanationLe (db.vocab_explanations item_id)
    explanations.foldl
      (fun info e =>
        if e.explanation_type = "meaning" then { info with meaning := e.content }
        else if e.explanation_type = "reading" then { info with reading := e.content }
        else info)
      info
  else info

/-- Row of the users table as selected by User.authenticate
(app.py lines 64 to 67), together with the mutable last_login column. -/
structure UserRow where
  id : Nat
  username : String
  password_hash : String
  last_login : Option Nat
  deriving DecidableEq

/-- The User object returned on success (app.py line 79). -/
structure AuthUser where
  id : Nat
  username : String
  deriving DecidableEq

/-- Outcome of User.authenticate: the returned user, whether the UPDATE of
last_login was committed, and the users table after the call. -/
structure AuthOutcome where
  user : Option AuthUser
  committed : Bool
  users : List UserRow
  deriving DecidableEq

/-- Embedding of User.authenticate (app.py lines 60 to 81).  The bcrypt
check is an oracle parameter; CURRENT_TIMESTAMP is the parameter now.
The UPDATE plus commit run only inside the success branch. -/
def authenticate (check_password_hash : String → String → Bool) (now : Nat)
    (users : List UserRow) (username password : String) : AuthOutcome :=
  let user_data := users.find? (fun u => u.username == username)
  match user_data with
  | some u =>
      if check_password_hash u.password_hash password then
        { user := some { id := u.id, username := u.username }
          committed := true
          users := users.map (fun w =>
            if w.id = u.id then { w with last_login := some now } else w) }
      else { user := none, committed := false, users := users }
  | none => { user := none, committed := false, users := users }

/-- Response of the login view: a redirect or a rendered page with its
flashed messages. -/
inductive LoginResponse where
  | redirect (target : String)
  | page (template : String) (flashes : List String)
  deriving DecidableEq

/-- Outcome of a POST to the login view. -/
structure LoginOutcome where
  response : LoginResponse
  committed : Bool
  users : List UserRow
  deriving DecidableEq

/-- Embedding of the POST branch of the login view (app.py lines 607 to
620): an already authenticated user is redirected; otherwise the
credentials are checked, success redirects to the radicals page, failure
flashes an error and re-renders the login template. -/
def login_post (check_password_hash : String → String → Bool) (now : Nat)
    (users : List UserRow) (is_authenticated : Bool)
    (username password : String) : LoginOutcome :=
  if is_authenticated then
    { response := LoginResponse.redirect "radicals", committed := false, users := users }
  else
    let auth := authenticate check_password_hash now users username password
    match auth.user with
    | some _ =>
        { response := LoginResponse.redirect "radicals"
          committed := auth.committed
          users := auth.users }
    | none =>
        { response := LoginResponse.page "login.html" ["Invalid username or password"]
          committed := auth.committed
          users := auth.users }

/-- State of the database connection opened at the top of a handler. -/
inductive ConnState where
  | opened
  | closed
  deriving DecidableEq

/-- Row of the radicals table as selected by radical_detail
(app.py lines 139 to 146). -/
structure RadicalDetailRow where
  character : Option String
  character_image : Option String
  meaning : String
  mnemonic : Option String
  mnemonic_image : Option String
  url : Option String
  level : Nat
  deriving DecidableEq

/-- Kanji summary row used by the join queries of the detail pages. -/
structure KanjiSummaryRow where
  id : Nat
  character : String
  meaning : String
  level : Nat
  deriving DecidableEq

/-- Row of the kanji table as selected by kanji_detail
(app.py lines 209 to 216). -/
structure KanjiDetailRow where
  character : String
  meaning : String
  url : Option String
  level : Nat
  deriving DecidableEq

/-- Row of kanji_readings as selected by kanji_detail. -/
structure ReadingRow where
  reading_type : String
  reading_text : String
  deriving DecidableEq

/-- Radical summary row used by the join query of kanji_detail. -/
structure RadicalSummaryRow where
  id : Nat
  character : Option String
  character_image : Option String
  meaning : String
  level : Nat
  deriving DecidableEq

/-- Vocabulary summary row used by the join query of kanji_detail. -/
structure VocabSummaryRow where
  id : Nat
  character : String
  primary_meaning : String
  reading : String
  level : Nat
  deriving DecidableEq

/-- Row of the vocabulary table as selected by vocab_detail
(app.py lines 543 to 550). -/
structure VocabDetailRow where
  character : String
  primary_meaning : String
  reading : String
  url : Option String
  level : Nat
  deriving DecidableEq

/-- Stored rows visible to the three detail handlers, keyed by item id. -/
structure SiteDb where
  radicals : Nat → Option RadicalDetailRow
  radical_kanji : Nat → List KanjiSummaryRow
  kanji : Nat → Option KanjiDetailRow
  kanji_readings : Nat → List ReadingRow
  kanji_mnemonics : Nat → List MnemonicRow
  kanji_radicals : Nat → List RadicalSummaryRow
  kanji_vocabulary : Nat → List VocabSummaryRow
  vocabulary : Nat → Option VocabDetailRow
  vocab_alt_meanings : Nat → List (Option String)
  vocab_explanations : Nat → List ExplanationRow
  vocab_kanji : Nat → List KanjiSummaryRow

/-- Observable outcome of a detail handler: HTTP status, rendered
template, and the state of the connection it opened. -/
structure PageOutcome where
  status : Nat
  template : Option String
  conn : ConnState
  deriving DecidableEq

/-- Embedding of radical_detail (app.py lines 132 to 170).  The handler
opens a connection, fetches the radical, and on the not-found path
returns the 404 response immediately; conn.close() at line 167 runs only
on the found path. -/
def radical_detail (db : SiteDb) (radical_id : Nat) : PageOutcome :=
  let conn := ConnState.opened
  match db.radicals radical_id with
  | none => { status := 404, template := none, conn := conn }
  | some radical =>
      let kanji_list := db.radical_kanji radical_id
      let conn := ConnState.closed
      { status := 200, template := some "radical_detail.html", conn := conn }

/-- Embedding of kanji_detail (app.py lines 202 to 285); conn.close() at
line 277 runs only on the found path. -/
def kanji_detail (db : SiteDb) (kanji_id : Nat) : PageOutcome :=
  let conn := ConnState.opened
  match db.kanji kanji_id with
  | none => { status := 404, template := none, conn := conn }
  | some kanji =>
      let readings := db.kanji_readings kanji_id
      let mnemonics := db.kanji_mnemonics kanji_id
      let radicals := db.kanji_radicals kanji_id
      let vocabulary := db.kanji_vocabulary kanji_id
      let conn := ConnState.closed
      { status := 200, template := some "kanji_detail.html", conn := conn }

/-- Embedding of vocab_detail (app.py lines 536 to 604); conn.close() at
line 597 runs only on the found path. -/
def vocab_detail (db : SiteDb) (vocab_id : Nat) : PageOutcome :=
  let conn := ConnState.opened
  match db.vocabulary vocab_id with
  | none => { status := 404, template := none, conn := conn }
  | some vocab =>
      let alt_meanings := db.vocab_alt_meanings vocab_id
      let explanations := db.vocab_explanations vocab_id
      let kanji_composition := db.vocab_kanji vocab_id
      let conn := ConnState.closed
      { status := 200, template := some "vocab_detail.html", conn := conn }

/-- Concrete radical sample used by the witnesses. -/
def radSample : List RadicalRow :=
  [{ id := 11, character := some "a", meaning := "ground" },
   { id := 12, character := some "b", meaning := "stick" },
   { id := 13, character := some "c", meaning := "drop" },
   { id := 14, character := some "d", meaning := "slide" },
   { id := 15, character := some "e", meaning := "hook" }]

/-- Concrete kanji sample used by the witnesses. -/
def kanSample : List KanjiRow :=
  [{ id := 21, character := "K1", meaning := "one", readings := some "ichi, itsu" },
   { id := 22, character := "K2", meaning := "two", readings := some "ni" },
   { id := 23, character := "K3", meaning := "three", readings := some "san" },
   { id := 24, character := "K4", meaning := "four", readings := some "shi, yon" },
   { id := 25, character := "K5", meaning := "five", readings := some "go" }]

/-- Concrete vocabulary sample used by the witnesses. -/
def vocSample : List VocabRow :=
  [{ id := 31, character := "V1", primary_meaning := "one thing", reading := "hitotsu",
     alternative_meanings := [some "unity"] },
   { id := 32, character := "V2", primary_meaning := "two things", reading := "futatsu",
     alternative_meanings := [none] },
   { id := 33, character := "V3", primary_meaning := "three things", reading := "mittsu",
     alternative_meanings := [] },
   { id := 34, character := "V4", primary_meaning := "dog", reading := "inu",
     alternative_meanings := [some "canine", none, some "hound"] },
   { id := 35, character := "V5", primary_meaning := "five things", reading := "itsutsu",
     alternative_meanings := [some ""] }]

/-- Concrete kanji row whose aggregated reading text is the spec example. -/
def demoKanji : KanjiRow :=
  { id := 42, character := "KD", meaning := "mouth", readings := some "a, b, ,c" }

/-- Concrete kanji row whose aggregated reading text repeats a reading. -/
def dupKanji : KanjiRow :=
  { id := 43, character := "KF", meaning := "fire", readings := some "ka, ka" }

/-- Concrete vocabulary row matching the spec example for meanings. -/
def demoVocab : VocabRow :=
  { id := 44, character := "VD", primary_meaning := "dog", reading := "inu",
    alternative_meanings := [some "canine", none, some "hound"] }

/-- Info store with no rows at all. -/
def trivialInfoDb : InfoDb :=
  { radicals := fun _ => none
    kanji_mnemonics := fun _ => []
    vocab_explanations := fun _ => [] }

/-- Users table with a single user. -/
def demoUsers : List UserRow :=
  [{ id := 1, username := "alice", password_hash := "hash1", last_login := none }]

/-- Site store with no rows at all. -/
def emptySite : SiteDb :=
  { radicals := fun _ => none
    radical_kanji := fun _ => []
    kanji := fun _ => none
    kanji_readings := fun _ => []
    kanji_mnemonics := fun _ => []
    kanji_radicals := fun _ => []
    kanji_vocabulary := fun _ => []
    vocabulary := fun _ => none
    vocab_alt_meanings := fun _ => []
    vocab_explanations := fun _ => []
    vocab_kanji := fun _ => [] }

/-- Site store with one radical, one kanji and one vocabulary at id 1. -/
def presentSite : SiteDb :=
  { emptySite with
    radicals := fun i =>
      if i = 1 then
        some { character := some "x", character_image := none, meaning := "ground",
               mnemonic := some "mn", mnemonic_image := none, url := none, level := 1 }
      else none
    kanji := fun i =>
      if i = 1 then some { character := "K", meaning := "mouth", url := none, level := 1 }
      else none
    vocabulary := fun i =>
      if i = 1 then
        some { character := "V", primary_meaning := "dog", reading := "inu",
               url := none, level := 1 }
      else none }

/-- Helper for C2: a filterMap of trimmed non-empty segments is the same
list as trimming every segment and then filtering out the empty ones. -/
theorem filterMap_strip_eq_filter_map (l : List String) :
    l.filterMap (fun r => if pyStrip r != "" then some (pyStrip r) else none) =
    (l.map pyStrip).filter (fun t => t != "") := by
  induction l with
  | nil => rfl
  | cons a rest ih =>
      by_cases ha : pyStrip a = ""
      · simpa [List.filterMap_cons, List.filter_cons, ha] using ih
      · simpa [List.filterMap_cons, List.filter_cons, ha] using ih

/-- Helper for C2: the reading list built by the code equals the reading
list described by the spec. -/
theorem readings_list_eq_spec (s : String) :
    readings_list s = specReadingList s := by
  unfold readings_list specReadingList
  exact filterMap_strip_eq_filter_map (pySplitComma s)

/-- Helper for C5: the Python construction of all_meanings agrees with the
spec description of the meaning answer list. -/
theorem keepTruthy_eq (l : List (Option String)) :
    l.filterMap (fun alt => if pyTruthy alt then alt else none) =
    l.filterMap (fun alt =>
      match alt with
      | none => none
      | some s => if s = "" then none else some s) := by
  induction l with
  | nil => rfl
  | cons a rest ih =>
      cases a with
      | none => simpa [List.filterMap_cons, pyTruthy] using ih
      | some s =>
          by_cases hs : s = ""
          · subst hs
            simpa [List.filterMap_cons, pyTruthy] using ih
          · have hp : pyTruthy (some s) = true := by simp [pyTruthy, hs]
            simp [List.filterMap_cons, hp, hs, ih]

/-- Helper for C5: all_meanings equals the spec meaning list. -/
theorem vocabAllMeanings_eq_spec (v : VocabRow) :
    vocabAllMeanings v = specMeaningList v.primary_meaning v.alternative_meanings := by
  unfold vocabAllMeanings specMeaningList
  cases halts : v.alternative_meanings with
  | nil => simp
  | cons a rest => simp [keepTruthy_eq]

/-- C3: the claim states that a radical entry falls back to the image
reference when the character glyph is absent and that the assembler never
fails there.  The sample query (app.py lines 392 to 398) selects only id,
character and meaning, so the fallback access radical["character_image"]
at lines 438 and 488 raises KeyError: the assembler fails on every
sampled radical whose character is NULL or empty, in review and learn
entries alike, while a present glyph is passed through unchanged. -/
theorem radical_character_fallback_crashes :
    radicalReviewItem { id := 7, character := none, meaning := "stick" } =
      Except.error "KeyError: character_image" ∧
    radicalLearnItem { id := 7, character := none, meaning := "stick" } =
      Except.error "KeyError: character_image" ∧
    radicalReviewItem { id := 8, character := some "", meaning := "drop" } =
      Except.error "KeyError: character_image" ∧
    radicalReviewItem { id := 9, character := some "x", meaning := "ground" } =
      Except.ok { id := "radical_9", type := "radical", character := "x",
                  prompts := [{ type := "meaning", answer := Answer.str "ground" }],
                  mode := "review" } :=
  ⟨rfl, rfl, rfl, rfl⟩

/-- C4: the claim states that a kanji whose aggregated reading text is NULL
still yields an entry with an empty reading answer.  The code calls
k["readings"].split(",") (app.py lines 446 and 497), which raises
AttributeError when the LEFT JOIN aggregated no readings, so the whole
assembler fails instead of producing the entry. -/
theorem kanji_null_readings_crashes :
    kanjiReviewItem { id := 9, character := "K", meaning := "mouth", readings := none } =
      Except.error "AttributeError: NoneType has no attribute split" ∧
    kanjiLearnItem { id := 9, character := "K", meaning := "mouth", readings := none } =
      Except.error "AttributeError: NoneType has no attribute split" ∧
    get_test_data radSample
      [{ id := 21, character := "K1", meaning := "one", readings := some "ichi" },
       { id := 22, character := "K2", meaning := "two", readings := none },
       { id := 23, character := "K3", meaning := "three", readings := some "san" },
       { id := 24, character := "K4", meaning := "four", readings := some "shi" },
       { id := 25, character := "K5", meaning := "five", readings := some "go" }]
      vocSample =
      Except.error "AttributeError: NoneType has no attribute split" :=
  ⟨rfl, rfl, rfl⟩

/-- C5: every vocabulary entry of the quiz assembler answers the meaning
prompt with the primary meaning followed by exactly the non-empty,
non-null alternative meanings, and the concrete spec example with primary
meaning dog and alternatives canine, NULL, hound yields exactly the list
dog, canine, hound. -/
theorem vocab_meaning_answer_spec :
    (∀ v : VocabRow,
        (vocabReviewItem v).prompts =
          [{ type := "meaning",
             answer := Answer.list (specMeaningList v.primary_meaning v.alternative_meanings) },
           { type := "reading", answer := Answer.str v.reading }] ∧
        (vocabLearnItem v).prompts =
          [{ type := "meaning",
             answer := Answer.list (specMeaningList v.primary_meaning v.alternative_meanings) },
           { type := "reading", answer := Answer.str v.reading }]) ∧
    vocabAllMeanings demoVocab = ["dog", "canine", "hound"] := by
  constructor
  · intro v
    constructor <;> simp [vocabReviewItem, vocabLearnItem, vocabAllMeanings_eq_spec]
  · decide

/-- C6: the claim states that every handler releases its connection on
every exit path, including the 404 paths.  The three detail handlers
return the 404 response before reaching conn.close(), so the connection
stays open on the not-found paths, while the found paths do close it. -/
theorem detail_handlers_leak_connection_on_404 :
    radical_detail emptySite 42 =
      { status := 404, template := none, conn := ConnState.opened } ∧
    kanji_detail emptySite 42 =
      { status := 404, template := none, conn := ConnState.opened } ∧
    vocab_detail emptySite 42 =
      { status := 404, template := none, conn := ConnState.opened } ∧
    radical_detail presentSite 1 =
      { status := 200, template := some "radical_detail.html", conn := ConnState.closed } ∧
    kanji_detail presentSite 1 =
      { status := 200, template := some "kanji_detail.html", conn := ConnState.closed } ∧
    vocab_detail presentSite 1 =
      { status := 200, template := some "vocab_detail.html", conn := ConnState.closed } :=
  ⟨rfl, rfl, rfl, rfl, rfl, rfl⟩

/-- C8: the answer-info lookup invoked with an item type outside radical,
kanji, vocabulary falls through every branch and returns the all-empty
default record without failing. -/
theorem additional_info_unknown_type_default (db : InfoDb) (item_type : String)
    (item_id : Nat) (hr : item_type ≠ "radical") (hk : item_type ≠ "kanji")
    (hv : item_type ≠ "vocabulary") :
    get_additional_info db item_type item_id = { meaning := "", reading := "" } := by
  unfold get_additional_info
  simp [hr, hk, hv]

/-- Witness for C8 at the concrete item type grammar. -/
theorem additional_info_unknown_type_default_witness :
    ("grammar" ≠ "radical" ∧ "grammar" ≠ "kanji" ∧ "grammar" ≠ "vocabulary") ∧
    get_additional_info trivialInfoDb "grammar" 5 = { meaning := "", reading := "" } :=
  ⟨by decide,
   additional_info_unknown_type_default trivialInfoDb "grammar" 5
     (by decide) (by decide) (by decide)⟩

/-- Helper: value of the kanji review builder when the aggregated reading
text is present. -/
theorem kanjiReviewItem_some (kid : Nat) (kch kme s : String) :
    kanjiReviewItem { id := kid, character := kch, meaning := kme, readings := some s } =
      Except.ok { id := "kanji_" ++ toString kid, type := "kanji", character := kch,
                  prompts := [{ type := "meaning", answer := Answer.str kme },
                              { type := "reading", answer := Answer.list (readings_list s) }],
                  mode := "review" } := rfl

/-- Helper: value of the kanji learn builder when the aggregated reading
text is present. -/
theorem kanjiLearnItem_some (kid : Nat) (kch kme s : String) :
    kanjiLearnItem { id := kid, character := kch, meaning := kme, readings := some s } =
      Except.ok { id := "learn_kanji_" ++ toString kid, type := "kanji", character := kch,
                  prompts := [{ type := "meaning", answer := Answer.str kme },
                              { type := "reading", answer := Answer.list (readings_list s) }],
                  mode := "learn" } := rfl

/-- C2 as stated is refuted at a concrete input: the assembler does not
deduplicate reading segments, so with aggregated reading text "ka, ka"
the produced reading answer is ["ka", "ka"], which is not a list of
distinct strings. -/
theorem kanji_reading_answer_not_distinct :
    kanjiReviewItem dupKanji =
      Except.ok { id := "kanji_43", type := "kanji", character := "KF",
                  prompts := [{ type := "meaning", answer := Answer.str "fire" },
                              { type := "reading", answer := Answer.list ["ka", "ka"] }],
                  mode := "review" } ∧
    ¬ (["ka", "ka"] : List String).Nodup :=
  ⟨rfl, by decide⟩

/-- C2 amended: for every kanji entry that the quiz assembler produces,
review or learn, the reading answer is the list of non-empty reading
strings obtained from the comma aggregated reading text by splitting on
commas, trimming whitespace and dropping empty segments, order preserved
as aggregated and duplicate segments preserved. -/
theorem kanji_reading_answer_spec (k : KanjiRow) (s : String) (it itl : TestItem)
    (hs : k.readings = some s) (hr : kanjiReviewItem k = Except.ok it)
    (hl : kanjiLearnItem k = Except.ok itl) :
    it.prompts = [{ type := "meaning", answer := Answer.str k.meaning },
                  { type := "reading", answer := Answer.list (specReadingList s) }] ∧
    itl.prompts = [{ type := "meaning", answer := Answer.str k.meaning },
                   { type := "reading", answer := Answer.list (specReadingList s) }] := by
  cases k with
  | mk kid kch kme krd =>
      have hs2 : krd = some s := hs
      subst hs2
      rw [kanjiReviewItem_some] at hr
      rw [kanjiLearnItem_some] at hl
      simp only [Except.ok.injEq] at hr hl
      subst hr
      subst hl
      constructor <;> simp [readings_list_eq_spec]

/-- Witness for the amended C2 at the spec example reading text. -/
theorem kanji_reading_answer_spec_witness :
    demoKanji.readings = some "a, b, ,c" ∧
    kanjiReviewItem demoKanji =
      Except.ok { id := "kanji_42", type := "kanji", character := "KD",
                  prompts := [{ type := "meaning", answer := Answer.str "mouth" },
                              { type := "reading", answer := Answer.list ["a", "b", "c"] }],
                  mode := "review" } ∧
    specReadingList "a, b, ,c" = ["a", "b", "c"] ∧
    ({ id := "kanji_42", type := "kanji", character := "KD",
       prompts := [{ type := "meaning", answer := Answer.str "mouth" },
                   { type := "reading", answer := Answer.list ["a", "b", "c"] }],
       mode := "review" } : TestItem).prompts =
      [{ type := "meaning", answer := Answer.str demoKanji.meaning },
       { type := "reading", answer := Answer.list (specReadingList "a, b, ,c") }] :=
  ⟨rfl, rfl, by decide,
   (kanji_reading_answer_spec demoKanji "a, b, ,c"
      { id := "kanji_42", type := "kanji", character := "KD",
        prompts := [{ type := "meaning", answer := Answer.str "mouth" },
                    { type := "reading", answer := Answer.list ["a", "b", "c"] }],
        mode := "review" }
      { id := "learn_kanji_42", type := "kanji", character := "KD",
        prompts := [{ type := "meaning", answer := Answer.str "mouth" },
                    { type := "reading", answer := Answer.list ["a", "b", "c"] }],
        mode := "learn" }
      rfl rfl rfl).1⟩

/-- Helper for C7: the meaning field of the scan fold is the content of
the last row of category meaning, defaulting to the initial value. -/
theorem foldl_info_meaning {ρ : Type} (typ content : ρ → String) (rows : List ρ)
    (info : Info) :
    (rows.foldl (fun info m =>
        if typ m = "meaning" then { info with meaning := content m }
        else if typ m = "reading" then { info with reading := content m }
        else info) info).meaning =
    (((rows.filter (fun m => typ m = "meaning")).map content).getLast?).getD info.meaning := by
  induction rows generalizing info with
  | nil => rfl
  | cons m rest ih =>
      by_cases hm : typ m = "meaning"
      · simp [hm, ih, List.filter_cons, List.getLast?_cons]
      · by_cases hr : typ m = "reading"
        · simp [hm, hr, ih, List.filter_cons]
        · simp [hm, hr, ih, List.filter_cons]

/-- Helper for C7: the reading field of the scan fold is the content of
the last row of category reading, defaulting to the initial value. -/
theorem foldl_info_reading {ρ : Type} (typ content : ρ → String) (rows : List ρ)
    (info : Info) :
    (rows.foldl (fun info m =>
        if typ m = "meaning" then { info with meaning := content m }
        else if typ m = "reading" then { info with reading := content m }
        else info) info).reading =
    (((rows.filter (fun m => typ m = "reading")).map content).getLast?).getD info.reading := by
  induction rows generalizing info with
  | nil => rfl
  | cons m rest ih =>
      by_cases hm : typ m = "meaning"
      · have hr : typ m ≠ "reading" := by rw [hm]; decide
        simp [hm, hr, ih, List.filter_cons]
      · by_cases hr : typ m = "reading"
        · simp [hm, hr, ih, List.filter_cons, List.getLast?_cons]
        · simp [hm, hr, ih, List.filter_cons]

/-- C7: for every kanji, and identically for every vocabulary item with
explanation rows in place of mnemonic rows, the lookup sets meaning to
the content of rows whose category is meaning and reading to the content
of rows whose category is reading, and with several rows of one category
the last row of the ascending-by-label scan order wins; a category with
no rows keeps the empty default. -/
theorem additional_info_last_row_wins (db : InfoDb) (item_id : Nat) :
    ((get_additional_info db "kanji" item_id).meaning =
      ((((List.insertionSort mnemonicLe (db.kanji_mnemonics item_id)).filter
          (fun m => m.mnemonic_type = "meaning")).map MnemonicRow.content).getLast?).getD "" ∧
     (get_additional_info db "kanji" item_id).reading =
      ((((List.insertionSort mnemonicLe (db.kanji_mnemonics item_id)).filter
          (fun m => m.mnemonic_type = "reading")).map MnemonicRow.content).getLast?).getD "") ∧
    ((get_additional_info db "vocabulary" item_id).meaning =
      ((((List.insertionSort explanationLe (db.vocab_explanations item_id)).filter
          (fun e => e.explanation_type = "meaning")).map ExplanationRow.content).getLast?).getD "" ∧
     (get_additional_info db "vocabulary" item_id).reading =
      ((((List.insertionSort explanationLe (db.vocab_explanations item_id)).filter
          (fun e => e.explanation_type = "reading")).map ExplanationRow.content).getLast?).getD "") := by
  have hk : get_additional_info db "kanji" item_id =
      (List.insertionSort mnemonicLe (db.kanji_mnemonics item_id)).foldl
        (fun info m =>
          if m.mnemonic_type = "meaning" then { info with meaning := m.content }
          else if m.mnemonic_type = "reading" then { info with reading := m.content }
          else info)
        { meaning := "", reading := "" } := rfl
  have hv : get_additional_info db "vocabulary" item_id =
      (List.insertionSort explanationLe (db.vocab_explanations item_id)).foldl
        (fun info e =>
          if e.explanation_type = "meaning" then { info with meaning := e.content }
          else if e.explanation_type = "reading" then { info with reading := e.content }
          else info)
        { meaning := "", reading := "" } := rfl
  refine ⟨⟨?_, ?_⟩, ?_, ?_⟩
  · rw [hk]
    exact foldl_info_meaning MnemonicRow.mnemonic_type MnemonicRow.content _ _
  · rw [hk]
    exact foldl_info_reading MnemonicRow.mnemonic_type MnemonicRow.content _ _
  · rw [hv]
    exact foldl_info_meaning ExplanationRow.explanation_type ExplanationRow.content _ _
  · rw [hv]
    exact foldl_info_reading ExplanationRow.explanation_type ExplanationRow.content _ _

/-- C9: a username and password pair that fails authentication, either an
unknown username or a non-matching password hash, leaves the users table
unchanged, commits no last_login update and returns no user, and the
login view re-displays the login page with the error notice; moreover, a
committed last_login update implies that a user was returned. -/
theorem authenticate_failure_no_mutation (check_password_hash : String → String → Bool)
    (now : Nat) (users : List UserRow) (username password : String) :
    ((∀ u, users.find? (fun w => w.username == username) = some u →
        check_password_hash u.password_hash password = false) →
      authenticate check_password_hash now users username password =
        { user := none, committed := false, users := users } ∧
      login_post check_password_hash now users false username password =
        { response := LoginResponse.page "login.html" ["Invalid username or password"]
          committed := false
          users := users }) ∧
    ((authenticate check_password_hash now users username password).committed = true →
      (authenticate check_password_hash now users username password).user ≠ none) := by
  constructor
  · intro hfail
    have hauth : authenticate check_password_hash now users username password =
        { user := none, committed := false, users := users } := by
      unfold authenticate
      cases hfind : users.find? (fun w => w.username == username) with
      | none => simp [hfind]
      | some u => simp [hfind, hfail u hfind]
    refine ⟨hauth, ?_⟩
    simp [login_post, hauth]
  · intro hcom
    cases hfind : users.find? (fun w => w.username == username) with
    | none =>
        have hval : authenticate check_password_hash now users username password =
            { user := none, committed := false, users := users } := by
          unfold authenticate
          simp [hfind]
        rw [hval] at hcom
        simp at hcom
    | some u =>
        cases hchk : check_password_hash u.password_hash password with
        | false =>
            have hval : authenticate check_password_hash now users username password =
                { user := none, committed := false, users := users } := by
              unfold authenticate
              simp [hfind, hchk]
            rw [hval] at hcom
            simp at hcom
        | true =>
            have hval : authenticate check_password_hash now users username password =
                { user := some { id := u.id, username := u.username }
                  committed := true
                  users := users.map (fun w =>
                    if w.id = u.id then { w with last_login := some now } else w) } := by
              unfold authenticate
              simp [hfind, hchk]
            rw [hval]
            simp

/-- Witness for C9 at a concrete users table and a rejecting hash oracle. -/
theorem authenticate_failure_no_mutation_witness :
    authenticate (fun _ _ => false) 0 demoUsers "alice" "pw" =
      { user := none, committed := false, users := demoUsers } ∧
    login_post (fun _ _ => false) 0 demoUsers false "alice" "pw" =
      { response := LoginResponse.page "login.html" ["Invalid username or password"]
        committed := false
        users := demoUsers } :=
  (authenticate_failure_no_mutation (fun _ _ => false) 0 demoUsers "alice" "pw").1
    (fun u _ => rfl)

/-- C10: for every storage order of the alternative meaning rows of a
vocabulary item, the meanings following the primary meaning in the
meaning answer of the produced entry appear in ascending alphabetical
order of their text, because the aggregation sorts the rows by meaning
text and the entry builder only filters the aggregated list. -/
theorem vocab_alternative_meanings_sorted (idn : Nat) (ch pm rd : String)
    (stored : List (Option String)) :
    (vocabReviewItem { id := idn, character := ch, primary_meaning := pm, reading := rd,
                       alternative_meanings := aggAlternativeMeanings stored }).prompts =
      [{ type := "meaning",
         answer := Answer.list (vocabAllMeanings
           { id := idn, character := ch, primary_meaning := pm, reading := rd,
             alternative_meanings := aggAlternativeMeanings stored }) },
       { type := "reading", answer := Answer.str rd }] ∧
    List.Sorted (fun a b : String => a ≤ b)
      ((vocabAllMeanings
          { id := idn, character := ch, primary_meaning := pm, reading := rd,
            alternative_meanings := aggAlternativeMeanings stored }).tail) := by
  constructor
  · rfl
  · show List.Sorted (fun a b : String => a ≤ b)
      (([pm] ++
        (if (aggAlternativeMeanings stored).isEmpty then []
         else (aggAlternativeMeanings stored).filterMap
           (fun alt => if pyTruthy alt then alt else none))).tail)
    rw [List.singleton_append, List.tail_cons]
    by_cases hemp : (aggAlternativeMeanings stored).isEmpty
    · rw [if_pos hemp]
      exact List.sorted_nil
    · rw [if_neg hemp]
      have hsorted : List.Sorted vam_le (List.insertionSort vam_le stored) :=
        List.sorted_insertionSort vam_le stored
      refine List.Pairwise.filterMap _ ?_ hsorted
      intro a a' hle b hb b' hb'
      cases a with
      | none => simp [pyTruthy] at hb
      | some sa =>
          cases a' with
          | none => simp [pyTruthy] at hb'
          | some sa' =>
              by_cases hsa : sa = ""
              · simp [pyTruthy, hsa] at hb
              · by_cases hsa' : sa' = ""
                · simp [pyTruthy, hsa'] at hb'
                · simp [pyTruthy, hsa] at hb
                  simp [pyTruthy, hsa'] at hb'
                  subst hb
                  subst hb'
                  exact hle

/-- Helper: a successful Except bind splits into two successful steps. -/
theorem except_bind_ok {α β : Type} {x : Except String α} {f : α → Except String β}
    {b : β} (h : (x >>= f) = Except.ok b) :
    ∃ a, x = Except.ok a ∧ f a = Except.ok b := by
  have h2 : Except.bind x f = Except.ok b := h
  cases x with
  | error e => exact absurd h2 (by simp [Except.bind])
  | ok a => exact ⟨a, rfl, by simpa [Except.bind] using h2⟩

/-- Helper: a list of length five is an explicit five element list. -/
theorem exists_five {α : Type} {l : List α} (h : l.length = 5) :
    ∃ a b c d e, l = [a, b, c, d, e] := by
  cases l with
  | nil => exact absurd h (by simp)
  | cons a l1 =>
  cases l1 with
  | nil => exact absurd h (by simp)
  | cons b l2 =>
  cases l2 with
  | nil => exact absurd h (by simp)
  | cons c l3 =>
  cases l3 with
  | nil => exact absurd h (by simp)
  | cons d l4 =>
  cases l4 with
  | nil => exact absurd h (by simp)
  | cons e l5 =>
  cases l5 with
  | cons f l6 => exact absurd h (by simp)
  | nil => exact ⟨a, b, c, d, e, rfl⟩

/-- Helper: shape of a successful radical review entry. -/
theorem radicalReviewItem_ok {r : RadicalRow} {it : TestItem}
    (h : radicalReviewItem r = Except.ok it) :
    it.type = "radical" ∧ it.id = "radical_" ++ toString r.id ∧ it.mode = "review" := by
  unfold radicalReviewItem at h
  cases hch : radicalItemCharacter r with
  | error e =>
      rw [hch] at h
      exact absurd h (by simp)
  | ok ch =>
      rw [hch] at h
      simp only [Except.ok.injEq] at h
      subst h
      exact ⟨rfl, rfl, rfl⟩

/-- Helper: shape of a successful radical learn entry. -/
theorem radicalLearnItem_ok {r : RadicalRow} {it : TestItem}
    (h : radicalLearnItem r = Except.ok it) :
    it.type = "radical" ∧ it.id = "learn_radical_" ++ toString r.id ∧ it.mode = "learn" := by
  unfold radicalLearnItem at h
  cases hch : radicalItemCharacter r with
  | error e =>
      rw [hch] at h
      exact absurd h (by simp)
  | ok ch =>
      rw [hch] at h
      simp only [Except.ok.injEq] at h
      subst h
      exact ⟨rfl, rfl, rfl⟩

/-- Helper: shape of a successful kanji review entry. -/
theorem kanjiReviewItem_ok {k : KanjiRow} {it : TestItem}
    (h : kanjiReviewItem k = Except.ok it) :
    it.type = "kanji" ∧ it.id = "kanji_" ++ toString k.id ∧ it.mode = "review" := by
  cases k with
  | mk kid kch kme krd =>
      cases krd with
      | none => exact absurd h (by simp [kanjiReviewItem])
      | some s =>
          rw [kanjiReviewItem_some] at h
          simp only [Except.ok.injEq] at h
          subst h
          exact ⟨rfl, rfl, rfl⟩

/-- Helper: shape of a successful kanji learn entry. -/
theorem kanjiLearnItem_ok {k : KanjiRow} {it : TestItem}
    (h : kanjiLearnItem k = Except.ok it) :
    it.type = "kanji" ∧ it.id = "learn_kanji_" ++ toString k.id ∧ it.mode = "learn" := by
  cases k with
  | mk kid kch kme krd =>
      cases krd with
      | none => exact absurd h (by simp [kanjiLearnItem])
      | some s =>
          rw [kanjiLearnItem_some] at h
          simp only [Except.ok.injEq] at h
          subst h
          exact ⟨rfl, rfl, rfl⟩

/-- Helper: a successful append step splits into a successful head entry
and a successful tail. -/
theorem appendItems_cons_ok {α β : Type} {f : α → Except String β} {a : α}
    {rest : List α} {ys : List β} (h : appendItems f (a :: rest) = Except.ok ys) :
    ∃ b bs, f a = Except.ok b ∧ appendItems f rest = Except.ok bs ∧ ys = b :: bs := by
  unfold appendItems at h
  obtain ⟨b, hb, h2⟩ := except_bind_ok h
  obtain ⟨bs, hbs, h3⟩ := except_bind_ok h2
  have h4 : (b :: bs : List β) = ys := by
    simpa [pure, Except.pure] using h3
  exact ⟨b, bs, hb, hbs, h4.symm⟩

/-- Helper: a successful append over the empty list returns the empty
list. -/
theorem appendItems_nil_ok {α β : Type} {f : α → Except String β} {ys : List β}
    (h : appendItems f ([] : List α) = Except.ok ys) : ys = [] := by
  unfold appendItems at h
  simpa using h.symm

/-- Helper: a successful learn loop over a sample with at least two
elements builds exactly the entries of the first two elements. -/
theorem learnTwo_ok {α : Type} {f : α → Except String TestItem} {a b : α}
    {rest : List α} {ys : List TestItem}
    (h : learnTwo f (a :: b :: rest) = Except.ok ys) :
    ∃ t0 t1, f a = Except.ok t0 ∧ f b = Except.ok t1 ∧ ys = [t0, t1] := by
  unfold learnTwo at h
  obtain ⟨a0, ha0, h2⟩ := except_bind_ok h
  have ha0v : a = a0 := by simpa [listIndex] using ha0
  subst ha0v
  obtain ⟨t0, ht0, h3⟩ := except_bind_ok h2
  obtain ⟨a1, ha1, h4⟩ := except_bind_ok h3
  have ha1v : b = a1 := by simpa [listIndex] using ha1
  subst ha1v
  obtain ⟨t1, ht1, h5⟩ := except_bind_ok h4
  have h6 : ([t0, t1] : List TestItem) = ys := by
    simpa [pure, Except.pure] using h5
  exact ⟨t0, t1, ht0, ht1, h6.symm⟩

/-- C1: whenever the quiz assembler runs on samples of exactly five
radicals, five kanji and five vocabulary and returns an items list, that
list is fifteen review entries followed by six learn entries, total
twenty-one, in fixed block order: review radicals, review kanji, review
vocabulary, then learn blocks built from the first two items of each
already drawn sample in the same order, each block preserving the
arrival order of its sample, with the learn ids prefixed learn_radical_,
learn_kanji_ and learn_vocab_. -/
theorem get_test_data_structure (radicals : List RadicalRow) (kanji : List KanjiRow)
    (vocabulary : List VocabRow) (items : List TestItem)
    (h5r : radicals.length = 5) (h5k : kanji.length = 5) (h5v : vocabulary.length = 5)
    (hok : get_test_data radicals kanji vocabulary = Except.ok items) :
    ∃ R K V LR LK LV,
      items = R ++ K ++ V ++ LR ++ LK ++ LV ∧
      R.length = 5 ∧ K.length = 5 ∧ V.length = 5 ∧
      LR.length = 2 ∧ LK.length = 2 ∧ LV.length = 2 ∧
      items.length = 21 ∧
      (∀ it ∈ R ++ K ++ V, it.mode = "review") ∧
      (∀ it ∈ LR ++ LK ++ LV, it.mode = "learn") ∧
      List.Forall₂ (fun r it => it.type = "radical" ∧ it.id = "radical_" ++ toString r.id)
        radicals R ∧
      List.Forall₂ (fun k it => it.type = "kanji" ∧ it.id = "kanji_" ++ toString k.id)
        kanji K ∧
      List.Forall₂ (fun v it => it.type = "vocabulary" ∧ it.id = "vocab_" ++ toString v.id)
        vocabulary V ∧
      List.Forall₂ (fun r it => it.type = "radical" ∧ it.id = "learn_radical_" ++ toString r.id)
        (radicals.take 2) LR ∧
      List.Forall₂ (fun k it => it.type = "kanji" ∧ it.id = "learn_kanji_" ++ toString k.id)
        (kanji.take 2) LK ∧
      List.Forall₂ (fun v it => it.type = "vocabulary" ∧ it.id = "learn_vocab_" ++ toString v.id)
        (vocabulary.take 2) LV := by
  obtain ⟨r0, r1, r2, r3, r4, rfl⟩ := exists_five h5r
  obtain ⟨k0, k1, k2, k3, k4, rfl⟩ := exists_five h5k
  obtain ⟨v0, v1, v2, v3, v4, rfl⟩ := exists_five h5v
  unfold get_test_data at hok
  obtain ⟨R, hR, hok⟩ := except_bind_ok hok
  obtain ⟨K, hK, hok⟩ := except_bind_ok hok
  obtain ⟨LR, hLR, hok⟩ := except_bind_ok hok
  obtain ⟨LK, hLK, hok⟩ := except_bind_ok hok
  obtain ⟨LV, hLV, hok⟩ := except_bind_ok hok
  have hitems : items =
      R ++ K ++ List.map vocabReviewItem [v0, v1, v2, v3, v4] ++ LR ++ LK ++ LV := by
    simpa [pure, Except.pure] using hok.symm
  obtain ⟨i0, R1, hi0, hRr, rfl⟩ := appendItems_cons_ok hR
  obtain ⟨i1, R2, hi1, hRr2, rfl⟩ := appendItems_cons_ok hRr
  obtain ⟨i2, R3, hi2, hRr3, rfl⟩ := appendItems_cons_ok hRr2
  obtain ⟨i3, R4, hi3, hRr4, rfl⟩ := appendItems_cons_ok hRr3
  obtain ⟨i4, R5, hi4, hRr5, rfl⟩ := appendItems_cons_ok hRr4
  have hR5 : R5 = [] := appendItems_nil_ok hRr5
  subst hR5
  obtain ⟨j0, K1, hj0, hKr, rfl⟩ := appendItems_cons_ok hK
  obtain ⟨j1, K2, hj1, hKr2, rfl⟩ := appendItems_cons_ok hKr
  obtain ⟨j2, K3, hj2, hKr3, rfl⟩ := appendItems_cons_ok hKr2
  obtain ⟨j3, K4, hj3, hKr4, rfl⟩ := appendItems_cons_ok hKr3
  obtain ⟨j4, K5, hj4, hKr5, rfl⟩ := appendItems_cons_ok hKr4
  have hK5 : K5 = [] := appendItems_nil_ok hKr5
  subst hK5
  obtain ⟨lr0, lr1, hlr0, hlr1, rfl⟩ := learnTwo_ok hLR
  obtain ⟨lk0, lk1, hlk0, hlk1, rfl⟩ := learnTwo_ok hLK
  obtain ⟨lv0, lv1, hlv0, hlv1, rfl⟩ := learnTwo_ok hLV
  have hlv0v : lv0 = vocabLearnItem v0 := by simpa using hlv0.symm
  have hlv1v : lv1 = vocabLearnItem v1 := by simpa using hlv1.symm
  subst hlv0v
  subst hlv1v
  subst hitems
  refine ⟨[i0, i1, i2, i3, i4], [j0, j1, j2, j3, j4],
      List.map vocabReviewItem [v0, v1, v2, v3, v4],
      [lr0, lr1], [lk0, lk1], [vocabLearnItem v0, vocabLearnItem v1],
      rfl, rfl, rfl, rfl, rfl, rfl, rfl, rfl, ?_, ?_, ?_, ?_, ?_, ?_, ?_, ?_⟩
  · intro it hit
    simp only [List.map_cons, List.map_nil, List.mem_append, List.mem_cons,
      List.not_mem_nil, or_false] at hit
    rcases hit with ((rfl | rfl | rfl | rfl | rfl) | (rfl | rfl | rfl | rfl | rfl)) |
      (rfl | rfl | rfl | rfl | rfl)
    · exact (radicalReviewItem_ok hi0).2.2
    · exact (radicalReviewItem_ok hi1).2.2
    · exact (radicalReviewItem_ok hi2).2.2
    · exact (radicalReviewItem_ok hi3).2.2
    · exact (radicalReviewItem_ok hi4).2.2
    · exact (kanjiReviewItem_ok hj0).2.2
    · exact (kanjiReviewItem_ok hj1).2.2
    · exact (kanjiReviewItem_ok hj2).2.2
    · exact (kanjiReviewItem_ok hj3).2.2
    · exact (kanjiReviewItem_ok hj4).2.2
    · rfl
    · rfl
    · rfl
    · rfl
    · rfl
  · intro it hit
    simp only [List.mem_append, List.mem_cons, List.not_mem_nil, or_false] at hit
    rcases hit with ((rfl | rfl) | (rfl | rfl)) | (rfl | rfl)
    · exact (radicalLearnItem_ok hlr0).2.2
    · exact (radicalLearnItem_ok hlr1).2.2
    · exact (kanjiLearnItem_ok hlk0).2.2
    · exact (kanjiLearnItem_ok hlk1).2.2
    · rfl
    · rfl
  · exact List.Forall₂.cons ⟨(radicalReviewItem_ok hi0).1, (radicalReviewItem_ok hi0).2.1⟩
      (List.Forall₂.cons ⟨(radicalReviewItem_ok hi1).1, (radicalReviewItem_ok hi1).2.1⟩
        (List.Forall₂.cons ⟨(radicalReviewItem_ok hi2).1, (radicalReviewItem_ok hi2).2.1⟩
          (List.Forall₂.cons ⟨(radicalReviewItem_ok hi3).1, (radicalReviewItem_ok hi3).2.1⟩
            (List.Forall₂.cons ⟨(radicalReviewItem_ok hi4).1, (radicalReviewItem_ok hi4).2.1⟩
              List.Forall₂.nil))))
  · exact List.Forall₂.cons ⟨(kanjiReviewItem_ok hj0).1, (kanjiReviewItem_ok hj0).2.1⟩
      (List.Forall₂.cons ⟨(kanjiReviewItem_ok hj1).1, (kanjiReviewItem_ok hj1).2.1⟩
        (List.Forall₂.cons ⟨(kanjiReviewItem_ok hj2).1, (kanjiReviewItem_ok hj2).2.1⟩
          (List.Forall₂.cons ⟨(kanjiReviewItem_ok hj3).1, (kanjiReviewItem_ok hj3).2.1⟩
            (List.Forall₂.cons ⟨(kanjiReviewItem_ok hj4).1, (kanjiReviewItem_ok hj4).2.1⟩
              List.Forall₂.nil))))
  · exact List.Forall₂.cons ⟨rfl, rfl⟩
      (List.Forall₂.cons ⟨rfl, rfl⟩
        (List.Forall₂.cons ⟨rfl, rfl⟩
          (List.Forall₂.cons ⟨rfl, rfl⟩
            (List.Forall₂.cons ⟨rfl, rfl⟩ List.Forall₂.nil))))
  · exact List.Forall₂.cons ⟨(radicalLearnItem_ok hlr0).1, (radicalLearnItem_ok hlr0).2.1⟩
      (List.Forall₂.cons ⟨(radicalLearnItem_ok hlr1).1, (radicalLearnItem_ok hlr1).2.1⟩
        List.Forall₂.nil)
  · exact List.Forall₂.cons ⟨(kanjiLearnItem_ok hlk0).1, (kanjiLearnItem_ok hlk0).2.1⟩
      (List.Forall₂.cons ⟨(kanjiLearnItem_ok hlk1).1, (kanjiLearnItem_ok hlk1).2.1⟩
        List.Forall₂.nil)
  · exact List.Forall₂.cons ⟨rfl, rfl⟩
      (List.Forall₂.cons ⟨rfl, rfl⟩ List.Forall₂.nil)

/-- Witness for C1 at a concrete five-five-five sample. -/
theorem get_test_data_structure_witness :
    radSample.length = 5 ∧ kanSample.length = 5 ∧ vocSample.length = 5 ∧
    ∃ items, get_test_data radSample kanSample vocSample = Except.ok items ∧
      ∃ R K V LR LK LV,
        items = R ++ K ++ V ++ LR ++ LK ++ LV ∧
        R.length = 5 ∧ K.length = 5 ∧ V.length = 5 ∧
        LR.length = 2 ∧ LK.length = 2 ∧ LV.length = 2 ∧
        items.length = 21 ∧
        (∀ it ∈ R ++ K ++ V, it.mode = "review") ∧
        (∀ it ∈ LR ++ LK ++ LV, it.mode = "learn") ∧
        List.Forall₂ (fun r it => it.type = "radical" ∧ it.id = "radical_" ++ toString r.id)
          radSample R ∧
        List.Forall₂ (fun k it => it.type = "kanji" ∧ it.id = "kanji_" ++ toString k.id)
          kanSample K ∧
        List.Forall₂ (fun v it => it.type = "vocabulary" ∧ it.id = "vocab_" ++ toString v.id)
          vocSample V ∧
        List.Forall₂
          (fun r it => it.type = "radical" ∧ it.id = "learn_radical_" ++ toString r.id)
          (radSample.take 2) LR ∧
        List.Forall₂
          (fun k it => it.type = "kanji" ∧ it.id = "learn_kanji_" ++ toString k.id)
          (kanSample.take 2) LK ∧
        List.Forall₂
          (fun v it => it.type = "vocabulary" ∧ it.id = "learn_vocab_" ++ toString v.id)
          (vocSample.take 2) LV := by
  refine ⟨rfl, rfl, rfl, ?_⟩
  refine ⟨_, rfl, ?_⟩
  exact get_test_data_structure radSample kanSample vocSample _ rfl rfl rfl rfl
